import Mathlib

/-!
Shallow embedding of the fontbakery check catalog
(`src/Lib/fontbakery/checks.py`) together with proofs about the
behaviour of individual checks: recorded events, autofix mutations,
and return values.

Conventions of the embedding:
* `fb.ok / fb.error / fb.warning / fb.info / fb.skip / fb.hotfix`
  append an `Event` to the list of events recorded for the current
  check; each check function below returns the list of events it
  records (plus any mutated state / return value).
* Python integers are `Int`; string splitting/joining is modelled
  with kernel-reducible helpers `strSplit` / `joinSep`.
* Network / subprocess interactions are modelled by an explicit
  input describing the outcome of the external call.
-/

/-- The six event kinds recorded by the Result Recorder. -/
inductive EventKind where
  | ok
  | error
  | warning
  | info
  | skip
  | hotfix
  deriving DecidableEq, Repr

/-- One recorded event: a kind plus a message string. -/
structure Event where
  kind : EventKind
  msg : String
  deriving DecidableEq, Repr

/-- Splits a character list on a (nonempty) separator, accumulating
the current chunk in `acc`; `fuel` bounds the recursion so that the
definition is structural and kernel-reducible.  Matches the
semantics of Python's `str.split(sep)`. -/
def splitOnCharsAux (sep : List Char) : Nat → List Char → List Char → List (List Char)
  | 0, _, acc => [acc.reverse]
  | _ + 1, [], acc => [acc.reverse]
  | fuel + 1, c :: rest, acc =>
    if sep.isPrefixOf (c :: rest) then
      acc.reverse :: splitOnCharsAux sep fuel ((c :: rest).drop sep.length) []
    else
      splitOnCharsAux sep fuel rest (c :: acc)

/-- Python's `s.split(sep)` for a nonempty separator (returns `[s]`
on an empty separator, which never occurs in the checks). -/
def strSplit (s sep : String) : List String :=
  match sep.toList with
  | [] => [s]
  | _ :: _ =>
    (splitOnCharsAux sep.toList (s.toList.length + 1) s.toList []).map
      (fun cs => ⟨cs⟩)

/-- Python's `sep.join(l)`. -/
def joinSep (sep : String) : List String → String
  | [] => ""
  | [x] => x
  | x :: y :: xs => x ++ sep ++ joinSep sep (y :: xs)

/-- Python's `pattern in s` substring test: a (nonempty) pattern
occurs in `s` iff splitting on it yields more than one part. -/
def strContains (s pat : String) : Bool :=
  (strSplit s pat).length != 1

/-- Python's `s.replace(' ', '')`. -/
def removeSpaces (s : String) : String :=
  String.join (strSplit s " ")

/-- The filename component of a path (`os.path.split(p)[1]`). -/
def pathFilename (p : String) : String :=
  (strSplit p "/").getLastD p

/-- The base of `os.path.splitext(s)`: everything before the last
dot, except that dots leading the name do not start an extension
(`".ttf"` has no extension, `"a.b.c"` has base `"a.b"`). -/
def splitextBase (s : String) : String :=
  let cs := s.toList
  let lead := (cs.takeWhile (fun c => c == '.')).length
  let idxs := (List.range cs.length).filter
    (fun i => (cs.getD i ' ' == '.') && decide (lead ≤ i))
  match idxs.getLast? with
  | some i => ⟨cs.take i⟩
  | none => s

/-- Modelled from the spec: `STYLE_NAMES` lives in
`fontbakery/constants.py`, which is not under `src/`.  Per §4.2 the
style set is the weight-suffix map {100:"Thin", 200:"ExtraLight", …,
900:"Black"}, each optionally combined with "Italic", with "Regular"
(and plain "Italic") for weight 400; this matches the `weights`
mapping defined in `checks.py` (whose keys are exactly these names
with spaces removed). -/
def STYLE_NAMES : List String :=
  ["Thin", "Thin Italic",
   "ExtraLight", "ExtraLight Italic",
   "Light", "Light Italic",
   "Regular", "Italic",
   "Medium", "Medium Italic",
   "SemiBold", "SemiBold Italic",
   "Bold", "Bold Italic",
   "ExtraBold", "ExtraBold Italic",
   "Black", "Black Italic"]

/-- Check 001 (`check_file_is_named_canonically`): the filename must
be `<familyname>-<stylename>.ttf` with the style drawn from
`STYLE_NAMES` (spaces removed).  Returns the recorded events and the
check's boolean return value. -/
def check_file_is_named_canonically (font_fname : String) : List Event × Bool :=
  let filename := pathFilename font_fname
  let basename := splitextBase filename
  let style_file_names := STYLE_NAMES.map removeSpaces
  let accepted :=
    match strSplit basename "-" with
    | _ :: second :: _ => style_file_names.contains second
    | _ => false
  if accepted then
    ([⟨.ok, font_fname ++ " is named canonically"⟩], true)
  else
    ([⟨.error, "Style name used in \x22" ++ font_fname ++
        "\x22 is not canonical. You should rebuild the font using" ++
        " any of the following style names: \x22" ++
        joinSep "\x22, \x22" STYLE_NAMES ++ "\x22."⟩],
     false)

/-- One font record of the family metadata (`FontMetadata`). -/
structure FontMetadata where
  name : String
  style : String
  weight : Int
  filename : String
  full_name : String
  post_script_name : String
  copyright : String
  deriving DecidableEq, Repr

/-- A family metadata record (`Family`). -/
structure Family where
  name : String
  designer : String
  license : String
  subsets : List String
  fonts : List FontMetadata
  deriving DecidableEq, Repr

/-- Check 084 (`check_METADATA_check_style_weight_pairs_are_unique`).
The Python code builds the dict of distinct `"style:weight"` strings;
on a duplicate it calls `logging.error` — which writes to the logging
module, NOT to the Result Recorder `fb` — so no event is recorded in
that branch; otherwise it records OK. -/
def check_METADATA_check_style_weight_pairs_are_unique (family : Family) : List Event :=
  let pairs := (family.fonts.map
    (fun f => f.style ++ ":" ++ toString f.weight)).dedup
  if pairs.length ≠ family.fonts.length then
    []
  else
    [⟨.ok, "METADATA.pb 'fonts' field only has unique style:weight pairs"⟩]

/-- One fontforge sub-check of `perform_all_fontforge_checks`: the
bitmask tested, the description used for the synthetic check id, and
the error / ok messages. -/
structure FFCheck where
  mask : Nat
  description : String
  errMsg : String
  okMsg : String
  deriving DecidableEq, Repr

/-- The twenty `ff_check` invocations of
`perform_all_fontforge_checks`, in source order. -/
def ffChecks : List FFCheck :=
  [⟨0x2, "Contours are closed?",
    "Contours are not closed!", "Contours are closed."⟩,
   ⟨0x4, "Contours do not intersect",
    "There are countour intersections!", "Contours do not intersect."⟩,
   ⟨0x8, "Contours have correct directions",
    "Contours have incorrect directions!",
    "Contours have correct directions."⟩,
   ⟨0x10, "References in the glyph haven't been flipped",
    "References in the glyph have been flipped!",
    "References in the glyph haven't been flipped."⟩,
   ⟨0x20, "Glyphs have points at extremas",
    "Glyphs do not have points at extremas!",
    "Glyphs have points at extremas."⟩,
   ⟨0x40, "Glyph names referred to from glyphs present in the font",
    "Glyph names referred to from glyphs not present in the font!",
    "Glyph names referred to from glyphs present in the font."⟩,
   ⟨0x40000, "Points (or control points) are not too far apart",
    "Points (or control points) are too far apart!",
    "Points (or control points) are not too far apart."⟩,
   ⟨0x80, "Not more than 1,500 points in any glyph (a PostScript limit)",
    "There are glyphs with more than 1,500 points!Exceeds a PostScript limit.",
    "Not more than 1,500 points in any glyph (a PostScript limit)."⟩,
   ⟨0x100, "PostScript has a limit of 96 hints in glyphs",
    "Exceeds PostScript limit of 96 hints per glyph",
    "Font respects PostScript limit of 96 hints per glyph"⟩,
   ⟨0x200, "Font doesn't have invalid glyph names",
    "Font has invalid glyph names!",
    "Font doesn't have invalid glyph names."⟩,
   ⟨0x400, "Glyphs have allowed numbers of points defined in maxp",
    "Glyphs exceed allowed numbers of points defined in maxp",
    "Glyphs have allowed numbers of points defined in maxp."⟩,
   ⟨0x800, "Glyphs have allowed numbers of paths defined in maxp",
    "Glyphs exceed allowed numbers of paths defined in maxp!",
    "Glyphs have allowed numbers of paths defined in maxp."⟩,
   ⟨0x1000, "Composite glyphs have allowed numbers of points defined in maxp?",
    "Composite glyphs exceed allowed numbers of points defined in maxp!",
    "Composite glyphs have allowed numbers of points defined in maxp."⟩,
   ⟨0x2000, "Composite glyphs have allowed numbers of paths defined in maxp",
    "Composite glyphs exceed allowed numbers of paths defined in maxp!",
    "Composite glyphs have allowed numbers of paths defined in maxp."⟩,
   ⟨0x4000, "Glyphs instructions have valid lengths",
    "Glyphs instructions have invalid lengths!",
    "Glyphs instructions have valid lengths."⟩,
   ⟨0x80000, "Points in glyphs are integer aligned",
    "Points in glyphs are not integer aligned!",
    "Points in glyphs are integer aligned."⟩,
   ⟨0x100000, "Glyphs have all required anchors.",
    "Glyphs do not have all required anchors!",
    "Glyphs have all required anchors."⟩,
   ⟨0x200000, "Glyph names are unique?",
    "Glyph names are not unique!", "Glyph names are unique."⟩,
   ⟨0x400000, "Unicode code points are unique?",
    "Unicode code points are not unique!",
    "Unicode code points are unique."⟩,
   ⟨0x800000, "Do hints overlap?",
    "Hints should NOT overlap!", "Hinds do not overlap."⟩]

/-- One `ff_check` call: a new sub-check is opened and a single event
recorded — ERROR iff the bit is set in the validation word
(`bool(validation_state & mask) is False` fails), OK otherwise. -/
def ffCheckEvent (validation_state : Nat) (c : FFCheck) : Event :=
  if validation_state &&& c.mask ≠ 0 then
    ⟨.error, "fontforge-check: " ++ c.errMsg⟩
  else
    ⟨.ok, "fontforge-check: " ++ c.okMsg⟩

/-- Check 039 (`perform_all_fontforge_checks`): decodes the 32-bit
validation word into one event per known bit, in source order. -/
def perform_all_fontforge_checks (validation_state : Nat) : List Event :=
  ffChecks.map (ffCheckEvent validation_state)

/-- The mask of the `i`-th fontforge sub-check (0 when out of range). -/
def ffMaskAt (i : Nat) : Nat :=
  ((ffChecks.map FFCheck.mask).getD i 0)

/-- Check 069 (`check_unused_data_at_the_end_of_glyf_table`): for a
non-CFF font, `expected = len(loca) - 1`, `diff = len(glyf) -
expected`; ERROR when `diff > 3` (unreachable data at end of glyf) or
`diff < 0` (loca references beyond glyf); OK otherwise (up to 3 bytes
of padding allowed). -/
def check_unused_data_at_the_end_of_glyf_table
    (hasCFF : Bool) (locaLen glyfLen : Nat) : List Event :=
  if hasCFF then
    [⟨.skip, "This check does not support CFF fonts."⟩]
  else
    let expected : Int := (locaLen : Int) - 1
    let actual : Int := (glyfLen : Int)
    let diff : Int := actual - expected
    if diff > 3 then
      [⟨.error, "Glyf table has unreachable data at the end of the table." ++
         " Expected glyf table length " ++ toString expected ++
         " (from loca table), got length " ++ toString actual ++
         " (difference: " ++ toString diff ++ ")"⟩]
    else if diff < 0 then
      [⟨.error, "Loca table references data beyond the end of the glyf table." ++
         " Expected glyf table length " ++ toString expected ++
         " (from loca table), got length " ++ toString actual ++
         " (difference: " ++ toString diff ++ ")"⟩]
    else
      [⟨.ok, "There is no unused data at the end of the glyf table."⟩]

/-- Check 130 (`check_post_italicAngle`).  Input: the autofix flag,
the METADATA style string, and the font's `post.italicAngle`.
Output: the recorded events and the value of `post.italicAngle` after
the check.  The code first negates a positive angle (hotfix when
autofixing, else error; the local `value` is negated in both cases
but the font is only mutated when autofixing), then clamps a
magnitude above 20 to -20 (again hotfix vs error), then checks the
angle against the style (reading the font's current value), and
records OK only when nothing failed. -/
def check_post_italicAngle
    (autofix : Bool) (style : String) (angle : Int) : List Event × Int :=
  let s1 : List Event × Int × Int × Bool :=
    if angle > 0 then
      if autofix then
        ([⟨.hotfix, "post.italicAngle from " ++ toString angle ++
            " to " ++ toString (-angle)⟩], -angle, -angle, true)
      else
        ([⟨.error, "post.italicAngle value must be changed from " ++
            toString angle ++ " to " ++ toString (-angle)⟩],
         angle, -angle, true)
    else ([], angle, angle, false)
  match s1 with
  | (ev1, fontAngle1, value1, failed1) =>
    let s2 : List Event × Int × Bool :=
      if value1.natAbs > 20 then
        if autofix then
          (ev1 ++ [⟨.hotfix, "post.italicAngle changed from " ++
             toString value1 ++ " to -20"⟩], -20, true)
        else
          (ev1 ++ [⟨.error, "post.italicAngle value must be changed from " ++
             toString value1 ++ " to -20"⟩], fontAngle1, true)
      else (ev1, fontAngle1, failed1)
    match s2 with
    | (ev2, fontAngle2, failed2) =>
      let s3 : List Event × Bool :=
        if strContains style "Italic" then
          if fontAngle2 = 0 then
            (ev2 ++ [⟨.error, "Font is italic, so post.italicAngle" ++
               " should be non-zero."⟩], true)
          else (ev2, failed2)
        else
          if fontAngle2 ≠ 0 then
            (ev2 ++ [⟨.error, "Font is not italic, so post.italicAngle" ++
               " should be equal to zero."⟩], true)
          else (ev2, failed2)
      match s3 with
      | (ev3, failed3) =>
        (if failed3 then ev3
         else ev3 ++ [⟨.ok, "post.italicAngle is " ++ toString value1⟩],
         fontAngle2)

/-- Lexicographic ≤ on character lists, by code point. -/
def charListLe : List Char → List Char → Bool
  | [], _ => true
  | _ :: _, [] => false
  | a :: as, b :: bs =>
    if a.toNat < b.toNat then true
    else if b.toNat < a.toNat then false
    else charListLe as bs

/-- Python's `a <= b` on strings: lexicographic by code points. -/
def strLe (a b : String) : Bool :=
  charListLe a.toList b.toList

/-- Python's `sorted` on a list of strings: ascending lexicographic
order by code points (insertion sort, which agrees with any stable
sort since equal keys are equal strings). -/
def sortedStrings (l : List String) : List String :=
  l.insertionSort (fun a b => strLe a b = true)

/-- Python's `"', '".join(l)`. -/
def joinQuoted (l : List String) : String :=
  joinSep "', '" l

/-- Check 087 (`check_METADATA_subsets_alphabetically_ordered`).
Returns the recorded events, the (possibly mutated) family, and
whether `save_FamilyProto_Message` was invoked. -/
def check_METADATA_subsets_alphabetically_ordered
    (autofix : Bool) (family : Family) : List Event × Family × Bool :=
  let expected := sortedStrings family.subsets
  if family.subsets ≠ expected then
    if autofix then
      ([⟨.hotfix, "METADATA.pb subsets were not sorted " ++
          "in alphabetical order: ['" ++ joinQuoted family.subsets ++
          "'] We're hotfixing that to ['" ++ joinQuoted expected ++ "']"⟩],
       { family with subsets := expected }, true)
    else
      ([⟨.error, "METADATA.pb subsets are not sorted " ++
          "in alphabetical order: Got ['" ++ joinQuoted family.subsets ++
          "'] and expected ['" ++ joinQuoted expected ++ "']"⟩],
       family, false)
  else
    ([⟨.ok, "METADATA.pb subsets are sorted in alphabetical order"⟩],
     family, false)

/-- Check 073 (`check_MaxAdvanceWidth_is_consistent_with_Hmtx_and_Hhea_tables`).
Inputs: `hhea.advanceWidthMax` and the list of hmtx advance widths
(`g[0]` of each metric).  Output: the recorded events, and
`some exn` when an uncaught Python exception escapes the check.
The hmtx maximum starts as `max(0, g[0])` for the first metric and
folds `max` over the rest.  In the mismatch branch the source reads
`fb.error("... %s ... %s ...") % (hmtx, hhea)`: the `%` operator is
applied to the RESULT of `fb.error` (which is `None`), so the ERROR
event carries the raw unformatted template and a `TypeError` is then
raised. -/
def check_MaxAdvanceWidth_is_consistent_with_Hmtx_and_Hhea_tables
    (hheaMax : Int) (hmtxWidths : List Int) : List Event × Option String :=
  let hmtxMax : Option Int :=
    match hmtxWidths with
    | [] => none
    | g :: rest => some (rest.foldl (fun acc w => max w acc) (max 0 g))
  match hmtxMax with
  | none =>
    ([⟨.error, "Failed to find advance width data in HMTX table!"⟩], none)
  | some m =>
    if m ≠ hheaMax then
      ([⟨.error, "AdvanceWidthMax mismatch: expected %s (from hmtx);" ++
          " got %s (from hhea)"⟩],
       some "TypeError: unsupported operand type(s) for %: 'NoneType' and 'tuple'")
    else
      ([⟨.ok, "MaxAdvanceWidth is consistent" ++
          " with values in the Hmtx and Hhea tables."⟩], none)

/-- Outcome of the `requests.get` call of check 081: either a
response with an HTTP status code, or an exception during the
request. -/
inductive HttpOutcome where
  | response (status : Nat)
  | failure
  deriving DecidableEq, Repr

/-- Check 081 (`check_family_is_listed_in_GFDirectory`): ERROR when
the response status is not 200, OK (returning the url) on 200, and
WARNING when the request raises. -/
def check_family_is_listed_in_GFDirectory
    (family : Family) (net : HttpOutcome) : List Event :=
  let url := "http://fonts.googleapis.com/css?family=" ++
    joinSep "+" (strSplit family.name " ")
  match net with
  | .response status =>
    if status ≠ 200 then
      [⟨.error, "No family found in GWF in " ++ url⟩]
    else
      [⟨.ok, "Font is properly listed in Google Font Directory."⟩]
  | .failure =>
    [⟨.warning, "Failed to query GWF at " ++ url⟩]

/-- Outcome of the `urllib.urlopen` + `csv.reader` pipeline of check
082: either the parsed CSV rows, or an exception. -/
inductive CsvOutcome where
  | rows (rows : List (List String))
  | failure
  deriving DecidableEq, Repr

/-- Check 082 (`check_METADATA_Designer_exists_in_GWF_profiles_csv`):
ERROR for an empty designer, SKIP for "Multiple Designers"; otherwise
the CSV is fetched (empty rows skipped, first column taken) and the
check records WARNING when the designer is absent, OK when present,
and WARNING when the fetch raises. -/
def check_METADATA_Designer_exists_in_GWF_profiles_csv
    (family : Family) (net : CsvOutcome) : List Event :=
  if family.designer = "" then
    [⟨.error, "METADATA.pb field \x22designer\x22 MUST NOT be empty!"⟩]
  else if family.designer = "Multiple Designers" then
    [⟨.skip, "Found 'Multiple Designers' at METADATA.pb, which is OK," ++
       "so we won't look for it at profiles.cvs"⟩]
  else
    match net with
    | .rows rows =>
      let designers := rows.filterMap List.head?
      if ¬ designers.contains family.designer then
        [⟨.warning, "METADATA.pb: Designer '" ++ family.designer ++
           "' is not listed in profiles.csv"⟩]
      else
        [⟨.ok, "Found designer '" ++ family.designer ++ "' at profiles.csv"⟩]
    | .failure =>
      [⟨.warning, "Failed to fetch profiles.csv"⟩]

/-- Outcome of the `subprocess.check_output` invocation of
pyfontaine: completed with status 0 and combined output, completed
with nonzero status (`CalledProcessError`, carrying the output), or
the executable could not be invoked at all (`OSError`). -/
inductive ToolRun where
  | output (out : String)
  | calledProcessError (out : String)
  | osError
  deriving DecidableEq, Repr

/-- The external coverage-tool adapter (`check_with_pyfontaine`):
on a successful run, OK iff the output contains the literal marker
"Support level: full", else ERROR embedding the raw output; a
`CalledProcessError` (nonzero exit) records ERROR embedding the
tool's output; an `OSError` (tool not invocable) records WARNING. -/
def check_with_pyfontaine (run : ToolRun) : List Event :=
  match run with
  | .output out =>
    if ¬ strContains out "Support level: full" then
      [⟨.error, "pyfontaine output follows:\n\n" ++ out ++ "\n"⟩]
    else
      [⟨.ok, "pyfontaine passed this file"⟩]
  | .calledProcessError out =>
    [⟨.error, "pyfontaine returned an error code. Output follows :\n\n" ++
       out ++ "\n"⟩]
  | .osError =>
    [⟨.warning, "\n\n\npyfontaine is not available!" ++
       " You really MUST check the fonts with this tool." ++
       " To install it, see https://github.com/googlefonts" ++
       "/gf-docs/blob/master/ProjectChecklist.md#pyfontaine\n\n\n"⟩]

/-! ## Theorems -/

/-- C1: the claim states that every check records at least one event,
and in particular that check 084 records at least one event both when
all style:weight pairs are unique and when a duplicate pair exists.
The code violates this: on a duplicate pair it calls `logging.error`
(the logging module) instead of `fb.error`, so ZERO events are
recorded on the Result Recorder; the unique case does record OK. -/
theorem check084_duplicate_pair_records_no_event :
    check_METADATA_check_style_weight_pairs_are_unique
      ⟨"Family", "Designer", "OFL", [],
       [⟨"Family", "normal", 400, "Family-Regular.ttf",
         "Family Regular", "Family-Regular", "c"⟩,
        ⟨"Family", "normal", 400, "Family-Regular2.ttf",
         "Family Regular2", "Family-Regular2", "c"⟩]⟩ = [] ∧
    (check_METADATA_check_style_weight_pairs_are_unique
      ⟨"Family", "Designer", "OFL", [],
       [⟨"Family", "normal", 400, "Family-Regular.ttf",
         "Family Regular", "Family-Regular", "c"⟩,
        ⟨"Family", "italic", 400, "Family-Italic.ttf",
         "Family Italic", "Family-Italic", "c"⟩]⟩).map Event.kind
      = [EventKind.ok] := by
  exact ⟨by decide, by decide⟩

/-- C8: the claim says the MaxAdvanceWidth check (073) records an
ERROR naming both values on a mismatch and completes normally.  The
code instead evaluates `fb.error("...%s...%s...") % (hmtx, hhea)`:
the ERROR event carries the raw unformatted template (naming neither
value) and the `%` is applied to `None`, raising a `TypeError` that
escapes the check.  The matching case does record OK and complete
normally. -/
theorem check073_mismatch_raises_TypeError :
    check_MaxAdvanceWidth_is_consistent_with_Hmtx_and_Hhea_tables 1000 [999]
      = ([⟨EventKind.error,
           "AdvanceWidthMax mismatch: expected %s (from hmtx);" ++
           " got %s (from hhea)"⟩],
         some "TypeError: unsupported operand type(s) for %: 'NoneType' and 'tuple'") ∧
    strContains
      "AdvanceWidthMax mismatch: expected %s (from hmtx); got %s (from hhea)"
      "999" = false ∧
    strContains
      "AdvanceWidthMax mismatch: expected %s (from hmtx); got %s (from hhea)"
      "1000" = false ∧
    check_MaxAdvanceWidth_is_consistent_with_Hmtx_and_Hhea_tables 1000 [1000, 500]
      = ([⟨EventKind.ok,
           "MaxAdvanceWidth is consistent" ++
           " with values in the Hmtx and Hhea tables."⟩], none) := by
  refine ⟨by decide, by decide, by decide, by decide⟩

/-- C10: in the external coverage-tool adapter, a nonzero exit status
(`CalledProcessError`) records ERROR embedding the tool's output (not
the degraded WARNING); only a failure to invoke the executable
(`OSError`) records WARNING; and a successful run records OK iff the
output contains the literal marker "Support level: full", else ERROR
with the raw output embedded. -/
theorem pyfontaine_adapter_error_handling :
    (∀ out : String,
      check_with_pyfontaine (.calledProcessError out)
        = [⟨EventKind.error,
            "pyfontaine returned an error code. Output follows :\n\n" ++
            out ++ "\n"⟩]) ∧
    ((check_with_pyfontaine .osError).map Event.kind = [EventKind.warning]) ∧
    (∀ out : String,
      check_with_pyfontaine (.output out)
        = if strContains out "Support level: full" then
            [⟨EventKind.ok, "pyfontaine passed this file"⟩]
          else
            [⟨EventKind.error,
              "pyfontaine output follows:\n\n" ++ out ++ "\n"⟩]) := by
  refine ⟨fun out => rfl, rfl, fun out => ?_⟩
  by_cases h : strContains out "Support level: full" <;>
    simp [check_with_pyfontaine, h]

/-- Totality of the lexicographic character-list order. -/
theorem charListLe_total (as bs : List Char) :
    charListLe as bs = true ∨ charListLe bs as = true := by
  induction as generalizing bs with
  | nil => left; rfl
  | cons a as ih =>
    cases bs with
    | nil => right; rfl
    | cons b bs =>
      simp only [charListLe]
      rcases Nat.lt_trichotomy a.toNat b.toNat with h | h | h
      · left; simp [h]
      · have h1 : ¬ a.toNat < b.toNat := by omega
        have h2 : ¬ b.toNat < a.toNat := by omega
        rcases ih bs with h3 | h3
        · left; simp [h1, h2, h3]
        · right; simp [h1, h2, h3]
      · right; simp [h]

/-- Transitivity of the lexicographic character-list order. -/
theorem charListLe_trans (as bs cs : List Char) :
    charListLe as bs = true → charListLe bs cs = true →
    charListLe as cs = true := by
  induction as generalizing bs cs with
  | nil => intro _ _; rfl
  | cons a as ih =>
    cases bs with
    | nil => intro h; simp [charListLe] at h
    | cons b bs =>
      cases cs with
      | nil => intro _ h; simp [charListLe] at h
      | cons c cs =>
        simp only [charListLe]
        split_ifs with h1 h2 h3 h4 h5 h6 <;> intro hab hbc <;>
          first
          | rfl
          | omega
          | exact ih bs cs hab hbc
          | simp_all

/-- `sortedStrings` permutes its input. -/
theorem sortedStrings_perm (l : List String) : (sortedStrings l).Perm l :=
  List.perm_insertionSort _ l

/-- `sortedStrings` produces a list sorted by `strLe`. -/
theorem sortedStrings_pairwise (l : List String) :
    (sortedStrings l).Pairwise (fun a b => strLe a b = true) := by
  haveI : IsTotal String (fun a b => strLe a b = true) :=
    ⟨fun a b => charListLe_total a.toList b.toList⟩
  haveI : IsTrans String (fun a b => strLe a b = true) :=
    ⟨fun a b c => charListLe_trans a.toList b.toList c.toList⟩
  exact List.sorted_insertionSort _ l

/-- C2: for a font whose `post.italicAngle` is +15, whatever the
style string: with autofix enabled the check records a HOTFIX event
and the font's `post.italicAngle` is -15 afterwards; with autofix
disabled it records an ERROR event and the value stays +15. -/
theorem check130_plus15_hotfix_or_error :
    ∀ style : String,
      ((check_post_italicAngle true style 15).1.any
          (fun e => e.kind == EventKind.hotfix) = true) ∧
      (check_post_italicAngle true style 15).2 = -15 ∧
      ((check_post_italicAngle false style 15).1.any
          (fun e => e.kind == EventKind.error) = true) ∧
      (check_post_italicAngle false style 15).2 = 15 := by
  intro style
  by_cases h : strContains style "Italic" <;>
    simp [check_post_italicAngle, h]

/-- C9: with autofix enabled, `check_post_italicAngle` always leaves
the font's `post.italicAngle` in the closed interval [-20, 0]: a
positive angle is negated, and a magnitude above 20 is clamped to
-20; with autofix disabled the font's value is never modified. -/
theorem check130_autofix_clamps_to_range :
    ∀ (style : String) (angle : Int),
      (-20 ≤ (check_post_italicAngle true style angle).2 ∧
        (check_post_italicAngle true style angle).2 ≤ 0) ∧
      (check_post_italicAngle false style angle).2 = angle ∧
      (0 < angle → angle ≤ 20 →
        (check_post_italicAngle true style angle).2 = -angle) ∧
      (20 < angle.natAbs →
        (check_post_italicAngle true style angle).2 = -20) := by
  intro style angle
  unfold check_post_italicAngle
  by_cases h : strContains style "Italic" <;>
    simp only [h] <;> split_ifs <;> simp_all <;> omega

/-- Witness for `check130_autofix_clamps_to_range` at concrete
angles 25 and 15. -/
theorem check130_autofix_clamps_to_range_witness :
    (check_post_italicAngle true "Regular" 25).2 = -20 ∧
    (check_post_italicAngle true "Regular" 15).2 = -15 ∧
    -20 ≤ (check_post_italicAngle true "Regular" 25).2 := by
  have h := check130_autofix_clamps_to_range "Regular" 25
  have h2 := check130_autofix_clamps_to_range "Regular" 15
  exact ⟨h.2.2.2 (by decide), h2.2.2.1 (by decide) (by decide), h.1.1⟩

/-- C3: the subsets-ordering check (087).  When the subsets are not
alphabetically sorted: with autofix it records exactly one HOTFIX
event describing the old and new lists, replaces the family's subsets
with the sorted list (a sorted permutation of the original), and
invokes the metadata save operation; without autofix it records an
ERROR and changes nothing and does not save.  When already sorted it
records OK and changes nothing. -/
theorem check087_subsets_autofix_contract :
    ∀ (autofix : Bool) (family : Family),
      (family.subsets = sortedStrings family.subsets →
        check_METADATA_subsets_alphabetically_ordered autofix family =
          ([⟨EventKind.ok, "METADATA.pb subsets are sorted in alphabetical order"⟩],
           family, false)) ∧
      (family.subsets ≠ sortedStrings family.subsets →
        (check_METADATA_subsets_alphabetically_ordered true family).1 =
            [⟨EventKind.hotfix,
              "METADATA.pb subsets were not sorted " ++
              "in alphabetical order: ['" ++ joinQuoted family.subsets ++
              "'] We're hotfixing that to ['" ++
              joinQuoted (sortedStrings family.subsets) ++ "']"⟩] ∧
        (check_METADATA_subsets_alphabetically_ordered true family).2.1.subsets
            = sortedStrings family.subsets ∧
        ((check_METADATA_subsets_alphabetically_ordered true family).2.1.subsets).Perm
            family.subsets ∧
        ((check_METADATA_subsets_alphabetically_ordered true family).2.1.subsets).Pairwise
            (fun a b => strLe a b = true) ∧
        (check_METADATA_subsets_alphabetically_ordered true family).2.2 = true) ∧
      (family.subsets ≠ sortedStrings family.subsets →
        (check_METADATA_subsets_alphabetically_ordered false family).1.map Event.kind
            = [EventKind.error] ∧
        (check_METADATA_subsets_alphabetically_ordered false family).2.1 = family ∧
        (check_METADATA_subsets_alphabetically_ordered false family).2.2 = false) := by
  intro autofix family
  refine ⟨fun h => ?_, fun h => ?_, fun h => ?_⟩
  · simp [check_METADATA_subsets_alphabetically_ordered, ← h]
  · simp only [check_METADATA_subsets_alphabetically_ordered, if_pos h, if_pos rfl]
    exact ⟨rfl, rfl, sortedStrings_perm _, sortedStrings_pairwise _, rfl⟩
  · simp only [check_METADATA_subsets_alphabetically_ordered, if_pos h]
    exact ⟨rfl, rfl, rfl⟩

/-- Witness for `check087_subsets_autofix_contract` at a concrete
unsorted family (["menu", "latin"]) and a concrete sorted family. -/
theorem check087_subsets_autofix_contract_witness :
    (check_METADATA_subsets_alphabetically_ordered true
        ⟨"Fam", "Des", "OFL", ["menu", "latin"], []⟩).2.1.subsets
      = sortedStrings ["menu", "latin"] ∧
    (check_METADATA_subsets_alphabetically_ordered true
        ⟨"Fam", "Des", "OFL", ["menu", "latin"], []⟩).2.2 = true ∧
    (check_METADATA_subsets_alphabetically_ordered false
        ⟨"Fam", "Des", "OFL", ["menu", "latin"], []⟩).2.2 = false ∧
    check_METADATA_subsets_alphabetically_ordered true
        ⟨"Fam", "Des", "OFL", ["latin", "menu"], []⟩
      = ([⟨EventKind.ok, "METADATA.pb subsets are sorted in alphabetical order"⟩],
         ⟨"Fam", "Des", "OFL", ["latin", "menu"], []⟩, false) := by
  have h1 := check087_subsets_autofix_contract true
    ⟨"Fam", "Des", "OFL", ["menu", "latin"], []⟩
  have h2 := check087_subsets_autofix_contract false
    ⟨"Fam", "Des", "OFL", ["menu", "latin"], []⟩
  have h3 := check087_subsets_autofix_contract true
    ⟨"Fam", "Des", "OFL", ["latin", "menu"], []⟩
  exact ⟨(h1.2.1 (by decide)).2.1, (h1.2.1 (by decide)).2.2.2.2,
         (h2.2.2 (by decide)).2.2, h3.1 (by decide)⟩

/-- C4 counterexample: the claim asserts that loca length 101 with
glyf length 103 (difference exactly 3) yields an ERROR; the code
allows up to 3 bytes of padding (`diff > 3` is the error condition),
so this input records OK. -/
theorem check069_diff_exactly_three_records_ok :
    (check_unused_data_at_the_end_of_glyf_table false 101 103).map Event.kind
      = [EventKind.ok] := by decide

/-- C4 (amended): for a non-CFF font the expected glyf length is
loca length minus 1; the check records a direction-sensitive ERROR
when the actual glyf length exceeds the expected length by more than
3 bytes (unreachable data) or is smaller than expected (loca
overrun), and OK otherwise; loca length 101 with glyf length 103
(difference exactly 3) is OK, and glyf length 104 (difference 4)
is an ERROR. -/
theorem check069_glyf_loca_padding_rule :
    (∀ locaLen glyfLen : Nat,
      (3 < (glyfLen : Int) - ((locaLen : Int) - 1) →
        check_unused_data_at_the_end_of_glyf_table false locaLen glyfLen =
          [⟨EventKind.error,
            "Glyf table has unreachable data at the end of the table." ++
            " Expected glyf table length " ++ toString ((locaLen : Int) - 1) ++
            " (from loca table), got length " ++ toString (glyfLen : Int) ++
            " (difference: " ++
            toString ((glyfLen : Int) - ((locaLen : Int) - 1)) ++ ")"⟩]) ∧
      ((glyfLen : Int) - ((locaLen : Int) - 1) < 0 →
        check_unused_data_at_the_end_of_glyf_table false locaLen glyfLen =
          [⟨EventKind.error,
            "Loca table references data beyond the end of the glyf table." ++
            " Expected glyf table length " ++ toString ((locaLen : Int) - 1) ++
            " (from loca table), got length " ++ toString (glyfLen : Int) ++
            " (difference: " ++
            toString ((glyfLen : Int) - ((locaLen : Int) - 1)) ++ ")"⟩]) ∧
      (0 ≤ (glyfLen : Int) - ((locaLen : Int) - 1) →
        (glyfLen : Int) - ((locaLen : Int) - 1) ≤ 3 →
        check_unused_data_at_the_end_of_glyf_table false locaLen glyfLen =
          [⟨EventKind.ok,
            "There is no unused data at the end of the glyf table."⟩])) ∧
    (check_unused_data_at_the_end_of_glyf_table false 101 103).map Event.kind
      = [EventKind.ok] ∧
    (check_unused_data_at_the_end_of_glyf_table false 101 104)
      = [⟨EventKind.error,
          "Glyf table has unreachable data at the end of the table." ++
          " Expected glyf table length 100 (from loca table)," ++
          " got length 104 (difference: 4)"⟩] := by
  refine ⟨fun locaLen glyfLen => ⟨fun h => ?_, fun h => ?_, fun h h2 => ?_⟩,
          by decide, by decide⟩
  · simp only [check_unused_data_at_the_end_of_glyf_table, if_neg Bool.false_ne_true,
      if_pos h]
  · simp only [check_unused_data_at_the_end_of_glyf_table]
    rw [if_neg (by omega : ¬ (3:Int) < (glyfLen : Int) - ((locaLen : Int) - 1)), if_pos h]
    rfl
  · simp only [check_unused_data_at_the_end_of_glyf_table]
    rw [if_neg (by omega : ¬ (3:Int) < (glyfLen : Int) - ((locaLen : Int) - 1)),
        if_neg (by omega : ¬ (glyfLen : Int) - ((locaLen : Int) - 1) < 0)]
    rfl

/-- Witness for `check069_glyf_loca_padding_rule` at loca length 101
and glyf lengths 104 (unreachable data), 99 (loca overrun) and 100
(exact match). -/
theorem check069_glyf_loca_padding_rule_witness :
    check_unused_data_at_the_end_of_glyf_table false 101 104
      = [⟨EventKind.error,
          "Glyf table has unreachable data at the end of the table." ++
          " Expected glyf table length 100 (from loca table)," ++
          " got length 104 (difference: 4)"⟩] ∧
    check_unused_data_at_the_end_of_glyf_table false 101 99
      = [⟨EventKind.error,
          "Loca table references data beyond the end of the glyf table." ++
          " Expected glyf table length 100 (from loca table)," ++
          " got length 99 (difference: -1)"⟩] ∧
    check_unused_data_at_the_end_of_glyf_table false 101 100
      = [⟨EventKind.ok,
          "There is no unused data at the end of the glyf table."⟩] := by
  exact ⟨(check069_glyf_loca_padding_rule.1 101 104).1 (by decide),
         (check069_glyf_loca_padding_rule.1 101 99).2.1 (by decide),
         (check069_glyf_loca_padding_rule.1 101 100).2.2 (by decide) (by decide)⟩

/-- C5: the bitmask decoder (039).  The word 0x2 yields exactly one
ERROR — the first sub-check, "Contours are closed?" — and OK for all
other known bits; the zero word yields all OK; and each known bit's
sub-check result depends only on that single bit of the word (OK iff
the bit is clear), so decoding is independent of any other bit and
of toggle order. -/
theorem check039_bitmask_bits_independent :
    ((perform_all_fontforge_checks 2).map Event.kind
        = EventKind.error :: List.replicate 19 EventKind.ok) ∧
    ((perform_all_fontforge_checks 0).map Event.kind
        = List.replicate 20 EventKind.ok) ∧
    (∀ w i : Nat, i < ffChecks.length →
      (((perform_all_fontforge_checks w)[i]?).map Event.kind
          = some EventKind.ok ↔ w &&& ffMaskAt i = 0)) ∧
    (∀ w w' i : Nat, i < ffChecks.length →
      w &&& ffMaskAt i = w' &&& ffMaskAt i →
      (perform_all_fontforge_checks w)[i]?
        = (perform_all_fontforge_checks w')[i]?) := by
  have hget : ∀ (w i : Nat) (h : i < ffChecks.length),
      (perform_all_fontforge_checks w)[i]?
        = some (ffCheckEvent w (ffChecks.get ⟨i, h⟩)) := by
    intro w i h
    simp [perform_all_fontforge_checks, List.getElem?_eq_getElem h]
  have hmask : ∀ (i : Nat) (h : i < ffChecks.length),
      ffMaskAt i = (ffChecks.get ⟨i, h⟩).mask := by
    intro i h
    simp [ffMaskAt, List.getD, List.getElem?_eq_getElem h]
  refine ⟨by decide, by decide, fun w i h => ?_, fun w w' i h heq => ?_⟩
  · rw [hget w i h, hmask i h]
    simp only [Option.map_some, ffCheckEvent]
    split_ifs with hbit
    · simp only [List.get_eq_getElem] at hbit
      simp [hbit]
    · simp only [List.get_eq_getElem] at hbit
      simp_all
  · rw [hget w i h, hget w' i h]
    rw [hmask i h] at heq
    simp only [ffCheckEvent, heq]

/-- Witness for `check039_bitmask_bits_independent`: sub-check 1 on
word 0x2, and sub-check 0 on words 4 and 0 (which agree on bit 1). -/
theorem check039_bitmask_bits_independent_witness :
    (((perform_all_fontforge_checks 2)[1]?).map Event.kind
        = some EventKind.ok ↔ 2 &&& ffMaskAt 1 = 0) ∧
    (perform_all_fontforge_checks 4)[0]?
      = (perform_all_fontforge_checks 0)[0]? := by
  exact ⟨check039_bitmask_bits_independent.2.2.1 2 1 (by decide),
         check039_bitmask_bits_independent.2.2.2 4 0 0 (by decide) (by decide)⟩

/-- C6: the canonical-filename check (001) records OK and returns
true for "Nunito-Regular.ttf" and "Oswald-BoldItalic.ttf", records
ERROR and returns false for "Nunito_Regular.ttf"; in general it
accepts a filename iff the extension-stripped basename splits on '-'
into at least two components with the second one among the style
names with spaces removed, and it records exactly one OK event when
it accepts and exactly one ERROR event when it rejects. -/
theorem check001_canonical_filename_rule :
    ((check_file_is_named_canonically "Nunito-Regular.ttf").2 = true ∧
      (check_file_is_named_canonically "Nunito-Regular.ttf").1.map Event.kind
        = [EventKind.ok]) ∧
    ((check_file_is_named_canonically "Oswald-BoldItalic.ttf").2 = true ∧
      (check_file_is_named_canonically "Oswald-BoldItalic.ttf").1.map Event.kind
        = [EventKind.ok]) ∧
    ((check_file_is_named_canonically "Nunito_Regular.ttf").2 = false ∧
      (check_file_is_named_canonically "Nunito_Regular.ttf").1.map Event.kind
        = [EventKind.error]) ∧
    (∀ font_fname : String,
      ((check_file_is_named_canonically font_fname).2 = true ↔
        (2 ≤ (strSplit (splitextBase (pathFilename font_fname)) "-").length ∧
          (strSplit (splitextBase (pathFilename font_fname)) "-").getD 1 ""
            ∈ STYLE_NAMES.map removeSpaces)) ∧
      ((check_file_is_named_canonically font_fname
          = ([⟨EventKind.ok, font_fname ++ " is named canonically"⟩], true)) ∨
       (check_file_is_named_canonically font_fname
          = ([⟨EventKind.error, "Style name used in \x22" ++ font_fname ++
                "\x22 is not canonical. You should rebuild the font using" ++
                " any of the following style names: \x22" ++
                joinSep "\x22, \x22" STYLE_NAMES ++ "\x22."⟩], false)))) := by
  refine ⟨⟨by decide, by decide⟩, ⟨by decide, by decide⟩, ⟨by decide, by decide⟩,
          fun font_fname => ⟨?_, ?_⟩⟩
  · simp only [check_file_is_named_canonically]
    rcases hsplit : strSplit (splitextBase (pathFilename font_fname)) "-" with
      _ | ⟨a, rest⟩
    · simp [hsplit]
    · cases rest with
      | nil => simp [hsplit]
      | cons b t =>
        simp only [hsplit, List.contains, List.getD, List.elem_iff]
        split_ifs with hmem <;> simp_all
  · simp only [check_file_is_named_canonically]
    split_ifs
    · left; rfl
    · right; rfl

/-- C7 counterexample: the claim asserts the network-backed checks
never record ERROR for any remote response; check 081 records ERROR
when the HTTP response status is not 200. -/
theorem check081_non200_response_records_error :
    (check_family_is_listed_in_GFDirectory
        ⟨"Nunito", "John Doe", "OFL", [], []⟩ (.response 404)).map Event.kind
      = [EventKind.error] := by decide

/-- C7 (amended): both network-backed checks record WARNING on an
exception during the remote request (for 082, when it reaches the
network step, i.e. the designer field is nonempty and not
"Multiple Designers"); check 081 records ERROR on a non-200 response
and OK on 200; check 082 never records an ERROR event unless the
designer field is empty (a local input, checked before any network
activity). -/
theorem network_checks_degrade_to_warning_amended :
    (∀ family : Family,
      (check_family_is_listed_in_GFDirectory family .failure).map Event.kind
        = [EventKind.warning]) ∧
    (∀ (family : Family) (status : Nat), status ≠ 200 →
      (check_family_is_listed_in_GFDirectory family (.response status)).map
          Event.kind = [EventKind.error]) ∧
    (∀ family : Family,
      (check_family_is_listed_in_GFDirectory family (.response 200)).map
          Event.kind = [EventKind.ok]) ∧
    (∀ family : Family, family.designer ≠ "" →
      family.designer ≠ "Multiple Designers" →
      (check_METADATA_Designer_exists_in_GWF_profiles_csv family .failure).map
          Event.kind = [EventKind.warning]) ∧
    (∀ (family : Family) (net : CsvOutcome), family.designer ≠ "" →
      (check_METADATA_Designer_exists_in_GWF_profiles_csv family net).countP
          (fun e => e.kind == EventKind.error) = 0) := by
  refine ⟨fun family => rfl, fun family status h => ?_, fun family => rfl,
          fun family h1 h2 => ?_, fun family net h1 => ?_⟩
  · simp [check_family_is_listed_in_GFDirectory, h]
  · simp [check_METADATA_Designer_exists_in_GWF_profiles_csv, h1, h2]
  · simp only [check_METADATA_Designer_exists_in_GWF_profiles_csv]
    rw [if_neg h1]
    split_ifs with h2
    · rfl
    · cases net with
      | failure => rfl
      | rows rows =>
        simp only []
        split_ifs <;> rfl

/-- Witness for `network_checks_degrade_to_warning_amended` at a
concrete family, status 404, a failed CSV fetch, and a CSV that does
list the designer. -/
theorem network_checks_degrade_to_warning_witness :
    (check_family_is_listed_in_GFDirectory
        ⟨"Nunito", "John Doe", "OFL", [], []⟩ (.response 404)).map Event.kind
      = [EventKind.error] ∧
    (check_METADATA_Designer_exists_in_GWF_profiles_csv
        ⟨"Nunito", "John Doe", "OFL", [], []⟩ .failure).map Event.kind
      = [EventKind.warning] ∧
    (check_METADATA_Designer_exists_in_GWF_profiles_csv
        ⟨"Nunito", "John Doe", "OFL", [], []⟩
        (.rows [["John Doe", "x"], []])).countP
          (fun e => e.kind == EventKind.error) = 0 := by
  exact ⟨network_checks_degrade_to_warning_amended.2.1
           ⟨"Nunito", "John Doe", "OFL", [], []⟩ 404 (by decide),
         network_checks_degrade_to_warning_amended.2.2.2.1
           ⟨"Nunito", "John Doe", "OFL", [], []⟩ (by decide) (by decide),
         network_checks_degrade_to_warning_amended.2.2.2.2
           ⟨"Nunito", "John Doe", "OFL", [], []⟩
           (.rows [["John Doe", "x"], []]) (by decide)⟩
